import Mathlib

/-
  Shallow embedding of the update-reconciliation engine of the cf-ddns
  repository (packages `config`, `cloudflare`, `updater`).

  External collaborators (the Cloudflare HTTP API, the public-IP detector
  and the standard-library duration parser) are modelled as oracles:
  records of pure functions supplied as parameters.  The Go code runs the
  per-(record, type) units of work as goroutines whose only shared state
  is the mutex-protected `State` map; the embedding processes the units of
  a pass sequentially in expansion order, which realises one admissible
  interleaving (each unit's steps are already sequential by data
  dependency, and the aggregate error message only carries a count, which
  is independent of the interleaving).
-/

namespace CfDdns

/- ----------------------------------------------------------------- -/
/- config/config.go                                                   -/
/- ----------------------------------------------------------------- -/

/-- DNSRecord mirrors `config.DNSRecord`: one configured DNS record. -/
structure DNSRecord where
  zoneID : String
  name : String
  types : List String
  ttl : Int
  proxied : Bool
deriving Repr, DecidableEq

/-- CloudflareConfig mirrors `config.CloudflareConfig`. -/
structure CloudflareConfig where
  apiToken : String
deriving Repr, DecidableEq

/-- Config mirrors `config.Config`. -/
structure Config where
  cloudflare : CloudflareConfig
  checkInterval : String
  records : List DNSRecord
deriving Repr, DecidableEq

/-- The inner `for _, t := range record.Types` loop of `Config.Validate`:
returns the error for the first type outside {A, AAAA}. -/
def validateTypes (i : Nat) : List String → Except String Unit
  | [] => Except.ok ()
  | t :: rest =>
    if t ≠ "A" ∧ t ≠ "AAAA" then
      Except.error ("record " ++ toString i ++ ": invalid type " ++ t ++ " (must be A or AAAA)")
    else validateTypes i rest

/-- The body of the record loop of `Config.Validate` for the record at
index `i`. -/
def validateRecord (i : Nat) (record : DNSRecord) : Except String Unit :=
  if record.zoneID = "" then
    Except.error ("record " ++ toString i ++ ": zone_id is required")
  else if record.name = "" then
    Except.error ("record " ++ toString i ++ ": name is required")
  else if record.types.length = 0 then
    Except.error ("record " ++ toString i ++ ": at least one type (A or AAAA) is required")
  else
    match validateTypes i record.types with
    | Except.error e => Except.error e
    | Except.ok _ =>
      if record.ttl < 60 ∨ record.ttl > 86400 then
        Except.error ("record " ++ toString i ++ ": ttl must be between 60 and 86400")
      else Except.ok ()

/-- The `for i, record := range c.Records` loop of `Config.Validate`. -/
def validateRecords : Nat → List DNSRecord → Except String Unit
  | _, [] => Except.ok ()
  | i, record :: rest =>
    match validateRecord i record with
    | Except.error e => Except.error e
    | Except.ok _ => validateRecords (i + 1) rest

/-- Validate mirrors `Config.Validate`.  `parseDurationOk` is the oracle
for the standard library `time.ParseDuration` succeeding on the interval
string (the parser itself is outside the repository). -/
def Validate (parseDurationOk : String → Bool) (c : Config) : Except String Unit :=
  if c.cloudflare.apiToken = "" then
    Except.error "cloudflare.api_token is required"
  else if c.checkInterval = "" then
    Except.error "check_interval is required"
  else if ¬ parseDurationOk c.checkInterval then
    Except.error "invalid check_interval format"
  else if c.records.length = 0 then
    Except.error "at least one DNS record must be configured"
  else validateRecords 0 c.records

/- ----------------------------------------------------------------- -/
/- cloudflare/client.go                                               -/
/- ----------------------------------------------------------------- -/

/-- APIRecord models the `cloudflare.DNSRecord` payload returned by the
vendor SDK calls (the fields the client reads). -/
structure APIRecord where
  id : String
  name : String
  rtype : String
  content : String
  ttl : Int
  proxied : Bool
deriving Repr, DecidableEq

/-- CFAPI is the oracle for the vendor SDK (`cloudflare.API`): the three
HTTP operations the client invokes, as pure functions.
`listDNSRecords zoneID name rtype` models `ListDNSRecords` with the
name/type filters; `createDNSRecord zoneID name rtype content ttl proxied`
models `CreateDNSRecord`; `updateDNSRecord zoneID id content ttl proxied`
models `UpdateDNSRecord`. -/
structure CFAPI where
  listDNSRecords : String → String → String → Except String (List APIRecord)
  createDNSRecord : String → String → String → String → Int → Bool → Except String APIRecord
  updateDNSRecord : String → String → String → Int → Bool → Except String Unit

/-- DNSRecordInfo mirrors `cloudflare.DNSRecordInfo`. -/
structure DNSRecordInfo where
  id : String
  zoneID : String
  name : String
  rtype : String
  content : String
  ttl : Int
  proxied : Bool
deriving Repr, DecidableEq

/-- GetDNSRecord mirrors `Client.GetDNSRecord`: list with filters; any
list failure is wrapped; an empty result list becomes the not-found
error; otherwise the first record is returned. -/
def GetDNSRecord (api : CFAPI) (zoneID name recordType : String) :
    Except String DNSRecordInfo :=
  match api.listDNSRecords zoneID name recordType with
  | Except.error e => Except.error ("failed to list DNS records: " ++ e)
  | Except.ok [] =>
    Except.error ("DNS record not found: " ++ name ++ " (" ++ recordType ++ ")")
  | Except.ok (record :: _) =>
    Except.ok
      { id := record.id, zoneID := zoneID, name := record.name,
        rtype := record.rtype, content := record.content,
        ttl := record.ttl, proxied := record.proxied }

/-- UpdateDNSRecord mirrors `Client.UpdateDNSRecord` (the `name` and
`recordType` parameters are accepted but, as in the source, not passed to
the SDK call). -/
def UpdateDNSRecord (api : CFAPI) (recordID zoneID _name _recordType content : String)
    (ttl : Int) (proxied : Bool) : Except String Unit :=
  match api.updateDNSRecord zoneID recordID content ttl proxied with
  | Except.error e => Except.error ("failed to update DNS record: " ++ e)
  | Except.ok _ => Except.ok ()

/-- CreateDNSRecord mirrors `Client.CreateDNSRecord`. -/
def CreateDNSRecord (api : CFAPI) (zoneID name recordType content : String)
    (ttl : Int) (proxied : Bool) : Except String DNSRecordInfo :=
  match api.createDNSRecord zoneID name recordType content ttl proxied with
  | Except.error e => Except.error ("failed to create DNS record: " ++ e)
  | Except.ok record =>
    Except.ok
      { id := record.id, zoneID := zoneID, name := record.name,
        rtype := record.rtype, content := record.content,
        ttl := record.ttl, proxied := record.proxied }

/-- UpsertDNSRecord mirrors `Client.UpsertDNSRecord`: try the find; on
any find error take the create path (discarding the created record); on a
found record take the update path with the existing record's id. -/
def UpsertDNSRecord (api : CFAPI) (zoneID name recordType content : String)
    (ttl : Int) (proxied : Bool) : Except String Unit :=
  match GetDNSRecord api zoneID name recordType with
  | Except.error _ =>
    match CreateDNSRecord api zoneID name recordType content ttl proxied with
    | Except.error e => Except.error e
    | Except.ok _ => Except.ok ()
  | Except.ok existing =>
    UpdateDNSRecord api existing.id zoneID name recordType content ttl proxied

/- ----------------------------------------------------------------- -/
/- updater/updater.go                                                 -/
/- ----------------------------------------------------------------- -/

/-- The state key `fmt.Sprintf("%s:%s:%s", zoneID, name, recordType)`. -/
def stateKey (zoneID name recordType : String) : String :=
  zoneID ++ ":" ++ name ++ ":" ++ recordType

/-- State mirrors `updater.State`: the map from key to last known IP is
modelled as an association list where the most recent write for a key is
the first binding (observationally the Go map). -/
structure State where
  Records : List (String × String)
deriving Repr, DecidableEq

/-- NewState mirrors `updater.NewState`: the empty map. -/
def NewState : State := ⟨[]⟩

/-- Get mirrors `State.Get`; a Go map read of a missing key yields the
zero value `""`. -/
def State.Get (s : State) (zoneID name recordType : String) : String :=
  (s.Records.lookup (stateKey zoneID name recordType)).getD ""

/-- Set mirrors `State.Set`: overwrite the binding for the key. -/
def State.Set (s : State) (zoneID name recordType ip : String) : State :=
  ⟨(stateKey zoneID name recordType, ip) :: s.Records⟩

/-- Detector is the oracle for `ipdetect.Detector` within one pass: the
outcome of `GetIPv4` and of `GetIPv6`. -/
structure Detector where
  GetIPv4 : Except String String
  GetIPv6 : Except String String

/-- UpsertCall records one invocation of `cfClient.UpsertDNSRecord` by
the update engine, with the arguments passed. -/
structure UpsertCall where
  zoneID : String
  name : String
  rtype : String
  content : String
  ttl : Int
  proxied : Bool
deriving Repr, DecidableEq

/-- The tail of `Updater.updateRecord` after the IP-detection call: the
error wrap of a failed detection, the no-change skip, and the upsert with
the state write on success.  The third component lists the upsert calls
the unit made. -/
def updateRecordResolved (p : CFAPI) (st : State) (record : DNSRecord)
    (recordType : String) (ipResult : Except String String) :
    Except String Unit × State × List UpsertCall :=
  match ipResult with
  | Except.error e => (Except.error ("failed to detect IP: " ++ e), st, [])
  | Except.ok currentIP =>
    let lastKnownIP := st.Get record.zoneID record.name recordType
    if currentIP = lastKnownIP ∧ lastKnownIP ≠ "" then
      (Except.ok (), st, [])
    else
      match UpsertDNSRecord p record.zoneID record.name recordType currentIP
          record.ttl record.proxied with
      | Except.error e =>
        (Except.error ("failed to update Cloudflare DNS: " ++ e), st,
          [⟨record.zoneID, record.name, recordType, currentIP, record.ttl, record.proxied⟩])
      | Except.ok _ =>
        (Except.ok (), st.Set record.zoneID record.name recordType currentIP,
          [⟨record.zoneID, record.name, recordType, currentIP, record.ttl, record.proxied⟩])

/-- updateRecord mirrors `Updater.updateRecord`: dispatch on the record
type (A uses IPv4 detection, AAAA uses IPv6 detection, anything else is
the invalid-type error before any detector or provider call). -/
def updateRecord (p : CFAPI) (d : Detector) (st : State) (record : DNSRecord)
    (recordType : String) : Except String Unit × State × List UpsertCall :=
  if recordType = "A" then
    updateRecordResolved p st record recordType d.GetIPv4
  else if recordType = "AAAA" then
    updateRecordResolved p st record recordType d.GetIPv6
  else
    (Except.error ("invalid record type: " ++ recordType), st, [])

/-- The expansion of the configured record list into one unit of work per
(record, type) pair, in the nested-loop order of `UpdateAll` and
`InitializeState`. -/
def expandUnits (records : List DNSRecord) : List (DNSRecord × String) :=
  records.flatMap (fun record => record.types.map (fun t => (record, t)))

/-- The per-unit work of `UpdateAll`: run `updateRecord` for each unit,
threading the shared state, and collect the wrapped error of each failed
unit (the per-goroutine `errChan` send). -/
def processUnits (p : CFAPI) (d : Detector) :
    List (DNSRecord × String) → State → State × List String
  | [], st => (st, [])
  | (record, recordType) :: rest, st =>
    let r := updateRecord p d st record recordType
    let tail := processUnits p d rest r.2.1
    match r.1 with
    | Except.error e =>
      (tail.1, ("failed to update " ++ record.name ++ " (" ++ recordType ++ "): " ++ e) :: tail.2)
    | Except.ok _ => (tail.1, tail.2)

/-- The number of units of work whose `updateRecord` fails, with the
state threaded exactly as `processUnits` threads it. -/
def countFailures (p : CFAPI) (d : Detector) :
    List (DNSRecord × String) → State → Nat
  | [], _ => 0
  | (record, recordType) :: rest, st =>
    let r := updateRecord p d st record recordType
    (match r.1 with
     | Except.error _ => 1
     | Except.ok _ => 0) + countFailures p d rest r.2.1

/-- UpdateAll mirrors `Updater.UpdateAll`: run every unit of work, then
aggregate the collected errors into a single count-carrying error, or
success when none occurred. -/
def UpdateAll (p : CFAPI) (d : Detector) (cfg : Config) (st : State) :
    State × Except String Unit :=
  let r := processUnits p d (expandUnits cfg.records) st
  if r.2.length > 0 then
    (r.1, Except.error ("encountered " ++ toString r.2.length ++ " error(s) during update"))
  else
    (r.1, Except.ok ())

/-- The loop body of `InitializeState` over the units of work: seed the
state with the found record's content, or skip the key on any find
error. -/
def initUnits (p : CFAPI) : List (DNSRecord × String) → State → State
  | [], st => st
  | (record, recordType) :: rest, st =>
    match GetDNSRecord p record.zoneID record.name recordType with
    | Except.error _ => initUnits p rest st
    | Except.ok existing =>
      initUnits p rest (st.Set record.zoneID record.name recordType existing.content)

/-- InitializeState mirrors `Updater.InitializeState`: best-effort
seeding over every (record, type) pair; the call itself always returns
nil. -/
def InitializeState (p : CFAPI) (cfg : Config) (st : State) :
    State × Except String Unit :=
  (initUnits p (expandUnits cfg.records) st, Except.ok ())

/- ----------------------------------------------------------------- -/
/- Helper lemmas                                                      -/
/- ----------------------------------------------------------------- -/

/-- Reading back the key just written yields the written value. -/
theorem State.Get_Set_same (st : State) (z n t v : String) :
    (st.Set z n t v).Get z n t = v := by
  simp [State.Get, State.Set, List.lookup]

/-- Writing one key leaves every other key's value unchanged. -/
theorem State.Get_Set_other (st : State) {z n t z' n' t' : String} (v : String)
    (h : stateKey z' n' t' ≠ stateKey z n t) :
    (st.Set z n t v).Get z' n' t' = st.Get z' n' t' := by
  have hb : (stateKey z' n' t' == stateKey z n t) = false := beq_eq_false_iff_ne.mpr h
  simp [State.Get, State.Set, List.lookup, hb]

/-- When the resolution outcome for the unit's type is a successful
detection of `currentIP`, `updateRecord` continues with that address. -/
theorem updateRecord_resolved_of (p : CFAPI) (d : Detector) (st : State)
    (record : DNSRecord) (recordType currentIP : String)
    (hres : (recordType = "A" ∧ d.GetIPv4 = Except.ok currentIP) ∨
      (recordType = "AAAA" ∧ d.GetIPv6 = Except.ok currentIP)) :
    updateRecord p d st record recordType =
      updateRecordResolved p st record recordType (Except.ok currentIP) := by
  rcases hres with ⟨h1, h2⟩ | ⟨h1, h2⟩ <;> subst h1
  · rw [updateRecord, if_pos rfl, h2]
  · rw [updateRecord, if_neg (by decide), if_pos rfl, h2]

/-- When the no-change skip does not apply, the unit issues the upsert
and its outcome decides the unit's outcome. -/
theorem updateRecordResolved_not_skip (p : CFAPI) (st : State) (record : DNSRecord)
    (recordType currentIP : String)
    (hcond : ¬ (currentIP = st.Get record.zoneID record.name recordType ∧
      st.Get record.zoneID record.name recordType ≠ "")) :
    updateRecordResolved p st record recordType (Except.ok currentIP) =
      match UpsertDNSRecord p record.zoneID record.name recordType currentIP
          record.ttl record.proxied with
      | Except.error e =>
        (Except.error ("failed to update Cloudflare DNS: " ++ e), st,
          [⟨record.zoneID, record.name, recordType, currentIP, record.ttl, record.proxied⟩])
      | Except.ok _ =>
        (Except.ok (), st.Set record.zoneID record.name recordType currentIP,
          [⟨record.zoneID, record.name, recordType, currentIP, record.ttl, record.proxied⟩]) := by
  simp only [updateRecordResolved]
  rw [if_neg hcond]

/-- Exhaustive case analysis of one unit of work: it fails before any
upsert leaving the state alone, skips as a no-op, upserts successfully
and writes exactly its own key, or upserts unsuccessfully leaving the
state alone. -/
theorem updateRecord_cases (p : CFAPI) (d : Detector) (st : State)
    (record : DNSRecord) (recordType : String) :
    (∃ e, updateRecord p d st record recordType = (Except.error e, st, []))
    ∨ updateRecord p d st record recordType = (Except.ok (), st, [])
    ∨ (∃ ip, UpsertDNSRecord p record.zoneID record.name recordType ip
          record.ttl record.proxied = Except.ok () ∧
        updateRecord p d st record recordType =
          (Except.ok (), st.Set record.zoneID record.name recordType ip,
            [⟨record.zoneID, record.name, recordType, ip, record.ttl, record.proxied⟩]))
    ∨ (∃ ip e, UpsertDNSRecord p record.zoneID record.name recordType ip
          record.ttl record.proxied = Except.error e ∧
        updateRecord p d st record recordType =
          (Except.error ("failed to update Cloudflare DNS: " ++ e), st,
            [⟨record.zoneID, record.name, recordType, ip, record.ttl, record.proxied⟩])) := by
  by_cases hA : recordType = "A"
  case neg =>
    by_cases hAAAA : recordType = "AAAA"
    case neg =>
      exact Or.inl ⟨"invalid record type: " ++ recordType, by
        rw [updateRecord, if_neg hA, if_neg hAAAA]⟩
    case pos =>
      subst hAAAA
      rw [updateRecord, if_neg (by decide), if_pos rfl]
      cases hip : d.GetIPv6 with
      | error e =>
        exact Or.inl ⟨"failed to detect IP: " ++ e, by simp [updateRecordResolved]⟩
      | ok currentIP =>
        by_cases hcond : currentIP = st.Get record.zoneID record.name "AAAA" ∧
            st.Get record.zoneID record.name "AAAA" ≠ ""
        · refine Or.inr (Or.inl ?_)
          simp only [updateRecordResolved]
          rw [if_pos hcond]
        · rw [updateRecordResolved_not_skip p st record "AAAA" currentIP hcond]
          cases hU : UpsertDNSRecord p record.zoneID record.name "AAAA" currentIP
              record.ttl record.proxied with
          | error e => exact Or.inr (Or.inr (Or.inr ⟨currentIP, e, hU, rfl⟩))
          | ok u => exact Or.inr (Or.inr (Or.inl ⟨currentIP, hU, rfl⟩))
  case pos =>
    subst hA
    rw [updateRecord, if_pos rfl]
    cases hip : d.GetIPv4 with
    | error e =>
      exact Or.inl ⟨"failed to detect IP: " ++ e, by simp [updateRecordResolved]⟩
    | ok currentIP =>
      by_cases hcond : currentIP = st.Get record.zoneID record.name "A" ∧
          st.Get record.zoneID record.name "A" ≠ ""
      · refine Or.inr (Or.inl ?_)
        simp only [updateRecordResolved]
        rw [if_pos hcond]
      · rw [updateRecordResolved_not_skip p st record "A" currentIP hcond]
        cases hU : UpsertDNSRecord p record.zoneID record.name "A" currentIP
            record.ttl record.proxied with
        | error e => exact Or.inr (Or.inr (Or.inr ⟨currentIP, e, hU, rfl⟩))
        | ok u => exact Or.inr (Or.inr (Or.inl ⟨currentIP, hU, rfl⟩))

/-- Behaviour of one resolved unit depends on the state only through the
stored value at the unit's own key: same stored value, same outcome and
same upsert calls. -/
theorem updateRecordResolved_congr (p : CFAPI) (st1 st2 : State) (record : DNSRecord)
    (recordType : String) (ipResult : Except String String)
    (hGet : st1.Get record.zoneID record.name recordType =
      st2.Get record.zoneID record.name recordType) :
    (updateRecordResolved p st1 record recordType ipResult).1 =
      (updateRecordResolved p st2 record recordType ipResult).1
    ∧ (updateRecordResolved p st1 record recordType ipResult).2.2 =
      (updateRecordResolved p st2 record recordType ipResult).2.2 := by
  cases ipResult with
  | error e => exact ⟨rfl, rfl⟩
  | ok ip =>
    simp only [updateRecordResolved, hGet]
    by_cases hcond : ip = st2.Get record.zoneID record.name recordType ∧
        st2.Get record.zoneID record.name recordType ≠ ""
    · rw [if_pos hcond, if_pos hcond]
      exact ⟨rfl, rfl⟩
    · rw [if_neg hcond, if_neg hcond]
      cases UpsertDNSRecord p record.zoneID record.name recordType ip
          record.ttl record.proxied <;> exact ⟨rfl, rfl⟩

/- ----------------------------------------------------------------- -/
/- Concrete actors used by the witnesses                              -/
/- ----------------------------------------------------------------- -/

/-- A provider whose listing always comes back empty (no matching
records), whose create succeeds, and whose update succeeds. -/
def wAPI : CFAPI :=
  { listDNSRecords := fun _ _ _ => Except.ok []
    createDNSRecord := fun _ name rtype content ttl proxied =>
      Except.ok ⟨"rid", name, rtype, content, ttl, proxied⟩
    updateDNSRecord := fun _ _ _ _ _ => Except.ok () }

/-- A detector resolving fixed addresses for both families. -/
def wDetector : Detector :=
  ⟨Except.ok "203.0.113.5", Except.ok "2001:db8::1"⟩

/-- A sample configured record. -/
def wRecord : DNSRecord := ⟨"z1", "home.example.com", ["A", "AAAA"], 120, false⟩

/- ----------------------------------------------------------------- -/
/- Claim theorems                                                     -/
/- ----------------------------------------------------------------- -/

/-- C1: for a unit of work whose stored address is absent or differs
from the newly resolved address, `updateRecord` issues exactly one upsert
with the resolved address, the record's TTL and proxied flag; if that
upsert succeeds, the state entry for the key becomes the resolved address
and the unit reports success. -/
theorem C1_upsert_on_change (p : CFAPI) (d : Detector) (st : State)
    (record : DNSRecord) (recordType currentIP : String)
    (hres : (recordType = "A" ∧ d.GetIPv4 = Except.ok currentIP) ∨
      (recordType = "AAAA" ∧ d.GetIPv6 = Except.ok currentIP))
    (hchanged : st.Get record.zoneID record.name recordType = "" ∨
      st.Get record.zoneID record.name recordType ≠ currentIP) :
    (updateRecord p d st record recordType).2.2 =
      [⟨record.zoneID, record.name, recordType, currentIP, record.ttl, record.proxied⟩]
    ∧ (UpsertDNSRecord p record.zoneID record.name recordType currentIP
        record.ttl record.proxied = Except.ok () →
      updateRecord p d st record recordType =
        (Except.ok (), st.Set record.zoneID record.name recordType currentIP,
          [⟨record.zoneID, record.name, recordType, currentIP, record.ttl, record.proxied⟩])) := by
  have hcond : ¬ (currentIP = st.Get record.zoneID record.name recordType ∧
      st.Get record.zoneID record.name recordType ≠ "") := by
    rcases hchanged with h | h
    · exact fun hc => hc.2 h
    · exact fun hc => h hc.1.symm
  rw [updateRecord_resolved_of p d st record recordType currentIP hres,
    updateRecordResolved_not_skip p st record recordType currentIP hcond]
  cases hU : UpsertDNSRecord p record.zoneID record.name recordType currentIP
      record.ttl record.proxied with
  | error e =>
    exact ⟨rfl, fun h => Except.noConfusion h⟩
  | ok u => exact ⟨rfl, fun _ => rfl⟩

/-- C1 witness: first run for the sample record. -/
theorem C1_witness :
    (updateRecord wAPI wDetector NewState wRecord "A").2.2 =
      [⟨"z1", "home.example.com", "A", "203.0.113.5", 120, false⟩]
    ∧ updateRecord wAPI wDetector NewState wRecord "A" =
      (Except.ok (), NewState.Set "z1" "home.example.com" "A" "203.0.113.5",
        [⟨"z1", "home.example.com", "A", "203.0.113.5", 120, false⟩]) := by
  have h := C1_upsert_on_change wAPI wDetector NewState wRecord "A" "203.0.113.5"
    (Or.inl ⟨rfl, rfl⟩) (Or.inl rfl)
  exact ⟨h.1, h.2 rfl⟩

/-- C2: when the newly resolved address equals the stored address and the
stored address is non-empty, `updateRecord` makes no upsert call, leaves
the state unchanged and returns success. -/
theorem C2_noop_on_same (p : CFAPI) (d : Detector) (st : State)
    (record : DNSRecord) (recordType currentIP : String)
    (hres : (recordType = "A" ∧ d.GetIPv4 = Except.ok currentIP) ∨
      (recordType = "AAAA" ∧ d.GetIPv6 = Except.ok currentIP))
    (heq : st.Get record.zoneID record.name recordType = currentIP)
    (hne : st.Get record.zoneID record.name recordType ≠ "") :
    updateRecord p d st record recordType = (Except.ok (), st, []) := by
  rw [updateRecord_resolved_of p d st record recordType currentIP hres]
  simp only [updateRecordResolved]
  rw [if_pos ⟨heq.symm, hne⟩]

/-- C2 witness: a second pass with an unchanged address is a no-op. -/
theorem C2_witness :
    updateRecord wAPI wDetector (NewState.Set "z1" "home.example.com" "A" "203.0.113.5")
      wRecord "A" =
    (Except.ok (), NewState.Set "z1" "home.example.com" "A" "203.0.113.5", []) :=
  C2_noop_on_same wAPI wDetector _ wRecord "A" "203.0.113.5"
    (Or.inl ⟨rfl, rfl⟩) (by decide) (by decide)

/-- C5: a failing unit of work leaves the state completely unchanged; no
unit ever writes a key other than its own; a successful unit either made
no upsert and left the state alone, or made one successful upsert and
wrote exactly its own key with the upserted address. -/
theorem C5_frame (p : CFAPI) (d : Detector) (st : State) (record : DNSRecord)
    (recordType : String) :
    (∀ e, (updateRecord p d st record recordType).1 = Except.error e →
      (updateRecord p d st record recordType).2.1 = st)
    ∧ (∀ z n t, stateKey z n t ≠ stateKey record.zoneID record.name recordType →
      ((updateRecord p d st record recordType).2.1).Get z n t = st.Get z n t)
    ∧ ((updateRecord p d st record recordType).1 = Except.ok () →
      ((updateRecord p d st record recordType).2.2 = []
        ∧ (updateRecord p d st record recordType).2.1 = st)
      ∨ (∃ ip, UpsertDNSRecord p record.zoneID record.name recordType ip
            record.ttl record.proxied = Except.ok ()
          ∧ (updateRecord p d st record recordType).2.2 =
            [⟨record.zoneID, record.name, recordType, ip, record.ttl, record.proxied⟩]
          ∧ (updateRecord p d st record recordType).2.1 =
            st.Set record.zoneID record.name recordType ip)) := by
  rcases updateRecord_cases p d st record recordType with
    ⟨e, he⟩ | hok | ⟨ip, hU, he⟩ | ⟨ip, e, hU, he⟩
  · rw [he]
    exact ⟨fun _ _ => rfl, fun z n t _ => rfl, fun h => Except.noConfusion h⟩
  · rw [hok]
    exact ⟨fun e h => Except.noConfusion h, fun z n t _ => rfl,
      fun _ => Or.inl ⟨rfl, rfl⟩⟩
  · rw [he]
    exact ⟨fun e h => Except.noConfusion h,
      fun z n t hne => State.Get_Set_other st ip hne,
      fun _ => Or.inr ⟨ip, hU, rfl, rfl⟩⟩
  · rw [he]
    exact ⟨fun e' h => rfl, fun z n t _ => rfl, fun h => Except.noConfusion h⟩

/-- C5 witness: a successful first-run unit does not touch another key. -/
theorem C5_witness :
    ((updateRecord wAPI wDetector NewState wRecord "A").2.1).Get
      "z2" "other.example.com" "A" = NewState.Get "z2" "other.example.com" "A" :=
  (C5_frame wAPI wDetector NewState wRecord "A").2.1
    "z2" "other.example.com" "A" (by decide)

/-- C8: a unit of work whose type is outside {A, AAAA} fails with the
invalid-type error only: the outcome is the same for every provider and
detector (no resolver or provider call is consulted), the state is left
unchanged, no upsert call is made, and the remaining units of the pass
are processed exactly as they would have been. -/
theorem C8_invalid_type_isolated (p : CFAPI) (d : Detector) (st : State)
    (record : DNSRecord) (recordType : String) (rest : List (DNSRecord × String))
    (h1 : recordType ≠ "A") (h2 : recordType ≠ "AAAA") :
    updateRecord p d st record recordType =
      (Except.error ("invalid record type: " ++ recordType), st, [])
    ∧ processUnits p d ((record, recordType) :: rest) st =
      ((processUnits p d rest st).1,
        ("failed to update " ++ record.name ++ " (" ++ recordType ++ "): " ++
          ("invalid record type: " ++ recordType)) :: (processUnits p d rest st).2) := by
  have hu : updateRecord p d st record recordType =
      (Except.error ("invalid record type: " ++ recordType), st, []) := by
    rw [updateRecord, if_neg h1, if_neg h2]
  refine ⟨hu, ?_⟩
  simp only [processUnits, hu]

/-- C8 witness: a TXT unit fails alone and the pass continues. -/
theorem C8_witness :
    updateRecord wAPI wDetector NewState wRecord "TXT" =
      (Except.error ("invalid record type: " ++ "TXT"), NewState, [])
    ∧ processUnits wAPI wDetector [(wRecord, "TXT")] NewState =
      ((processUnits wAPI wDetector [] NewState).1,
        ("failed to update " ++ wRecord.name ++ " (" ++ "TXT" ++ "): " ++
          ("invalid record type: " ++ "TXT")) ::
          (processUnits wAPI wDetector [] NewState).2) :=
  C8_invalid_type_isolated wAPI wDetector NewState wRecord "TXT" []
    (by decide) (by decide)

/-- C9: the absent marker of the state is the empty string: a never
recorded key reads as `""`, a key explicitly set to `""` reads as `""`,
the unit's outcome and upsert calls depend on the state only through the
stored value at its own key (so a stored empty address is
indistinguishable from absence), and with an empty stored value the
upsert is attempted regardless of the resolved address. -/
theorem C9_empty_is_absent :
    (∀ z n t, NewState.Get z n t = "")
    ∧ (∀ (st : State) z n t, (st.Set z n t "").Get z n t = "")
    ∧ (∀ (p : CFAPI) (d : Detector) (st1 st2 : State) (record : DNSRecord)
        (recordType : String),
      st1.Get record.zoneID record.name recordType =
        st2.Get record.zoneID record.name recordType →
      (updateRecord p d st1 record recordType).1 =
        (updateRecord p d st2 record recordType).1
      ∧ (updateRecord p d st1 record recordType).2.2 =
        (updateRecord p d st2 record recordType).2.2)
    ∧ (∀ (p : CFAPI) (d : Detector) (st : State) (record : DNSRecord)
        (recordType currentIP : String),
      ((recordType = "A" ∧ d.GetIPv4 = Except.ok currentIP) ∨
        (recordType = "AAAA" ∧ d.GetIPv6 = Except.ok currentIP)) →
      st.Get record.zoneID record.name recordType = "" →
      (updateRecord p d st record recordType).2.2 =
        [⟨record.zoneID, record.name, recordType, currentIP, record.ttl,
          record.proxied⟩]) := by
  refine ⟨fun z n t => rfl, fun st z n t => State.Get_Set_same st z n t "", ?_, ?_⟩
  · intro p d st1 st2 record recordType hGet
    by_cases hA : recordType = "A"
    · subst hA
      rw [updateRecord, if_pos rfl, updateRecord, if_pos rfl]
      exact updateRecordResolved_congr p st1 st2 record "A" d.GetIPv4 hGet
    · by_cases hAAAA : recordType = "AAAA"
      · subst hAAAA
        rw [updateRecord, if_neg (by decide), if_pos rfl, updateRecord,
          if_neg (by decide), if_pos rfl]
        exact updateRecordResolved_congr p st1 st2 record "AAAA" d.GetIPv6 hGet
      · rw [updateRecord, if_neg hA, if_neg hAAAA, updateRecord, if_neg hA,
          if_neg hAAAA]
        exact ⟨rfl, rfl⟩
  · intro p d st record recordType currentIP hres hGet
    rw [updateRecord_resolved_of p d st record recordType currentIP hres,
      updateRecordResolved_not_skip p st record recordType currentIP
        (fun hc => hc.2 hGet)]
    cases UpsertDNSRecord p record.zoneID record.name recordType currentIP
        record.ttl record.proxied <;> rfl

/-- C9 witness: with the stored value set to the empty string, the upsert
is attempted even though the key was written. -/
theorem C9_witness :
    (updateRecord wAPI wDetector (NewState.Set "z1" "home.example.com" "A" "")
      wRecord "A").2.2 =
    [⟨"z1", "home.example.com", "A", "203.0.113.5", 120, false⟩] :=
  C9_empty_is_absent.2.2.2 wAPI wDetector
    (NewState.Set "z1" "home.example.com" "A" "") wRecord "A" "203.0.113.5"
    (Or.inl ⟨rfl, rfl⟩) (by decide)

/-- The final state of a pass is the left fold of the per-unit state
transitions in expansion order. -/
theorem processUnits_state_eq (p : CFAPI) (d : Detector)
    (units : List (DNSRecord × String)) (st : State) :
    (processUnits p d units st).1 =
      units.foldl (fun s u => (updateRecord p d s u.1 u.2).2.1) st := by
  induction units generalizing st with
  | nil => rfl
  | cons u rest ih =>
    cases u with
    | mk record recordType =>
      cases h : (updateRecord p d st record recordType).1 with
      | error e => simp [processUnits, h, ih]
      | ok u => simp [processUnits, h, ih]

/-- The number of collected errors of a pass is the number of failing
units of work. -/
theorem processUnits_length_eq (p : CFAPI) (d : Detector)
    (units : List (DNSRecord × String)) (st : State) :
    (processUnits p d units st).2.length = countFailures p d units st := by
  induction units generalizing st with
  | nil => rfl
  | cons u rest ih =>
    cases u with
    | mk record recordType =>
      cases h : (updateRecord p d st record recordType).1 with
      | error e => simp [processUnits, countFailures, h, ih, Nat.add_comm]
      | ok u => simp [processUnits, countFailures, h, ih]

/-- C3: `UpdateAll` commits the threaded per-unit state transitions (a
failing unit's transition being the identity, so successes are never
rolled back), and reports success exactly when no unit failed, otherwise
a single aggregate error carrying the number of failing units. -/
theorem C3_aggregate_errors (p : CFAPI) (d : Detector) (cfg : Config) (st : State) :
    (UpdateAll p d cfg st).1 =
      (expandUnits cfg.records).foldl (fun s u => (updateRecord p d s u.1 u.2).2.1) st
    ∧ (UpdateAll p d cfg st).2 =
      (if countFailures p d (expandUnits cfg.records) st = 0 then Except.ok ()
       else Except.error ("encountered " ++
         toString (countFailures p d (expandUnits cfg.records) st) ++
         " error(s) during update"))
    ∧ (∀ (st' : State) (record : DNSRecord) (recordType : String) (e : String),
      (updateRecord p d st' record recordType).1 = Except.error e →
      (updateRecord p d st' record recordType).2.1 = st') := by
  refine ⟨?_, ?_, ?_⟩
  · simp only [UpdateAll]
    split <;> exact processUnits_state_eq p d (expandUnits cfg.records) st
  · simp only [UpdateAll]
    rw [← processUnits_length_eq p d (expandUnits cfg.records) st]
    by_cases hlen : (processUnits p d (expandUnits cfg.records) st).2.length > 0
    · rw [if_pos hlen, if_neg (by omega)]
    · rw [if_neg hlen, if_pos (by omega)]
  · intro st' record recordType e he
    rcases updateRecord_cases p d st' record recordType with
      ⟨e', h⟩ | hok | ⟨ip, hU, h⟩ | ⟨ip, e', hU, h⟩
    · rw [h]
    · rw [hok] at he
      exact Except.noConfusion he
    · rw [h] at he
      exact Except.noConfusion he
    · rw [h]

/-- A detector whose IPv6 resolution has exhausted all services. -/
def wFailDetector : Detector :=
  ⟨Except.ok "203.0.113.5", Except.error "all services failed"⟩

/-- A sample configuration holding the sample record. -/
def wConfig : Config := ⟨⟨"token"⟩, "5m", [wRecord]⟩

/-- C3 witness: of the two units of the sample configuration the AAAA
unit fails, and the pass reports exactly one error while the A unit's
state write stands. -/
theorem C3_witness :
    countFailures wAPI wFailDetector (expandUnits wConfig.records) NewState = 1
    ∧ (UpdateAll wAPI wFailDetector wConfig NewState).2 =
      Except.error ("encountered " ++ toString (1 : Nat) ++ " error(s) during update")
    ∧ (UpdateAll wAPI wFailDetector wConfig NewState).1.Get
      "z1" "home.example.com" "A" = "203.0.113.5" := by
  have h := C3_aggregate_errors wAPI wFailDetector wConfig NewState
  have hc : countFailures wAPI wFailDetector (expandUnits wConfig.records) NewState = 1 := by
    decide
  refine ⟨hc, ?_, ?_⟩
  · rw [h.2.1, hc]
    rfl
  · rw [h.1]
    decide

/-- Provider listing failing for every key yields the not-found error of
`GetDNSRecord`. -/
theorem GetDNSRecord_of_empty (api : CFAPI) (zoneID name recordType : String)
    (h : api.listDNSRecords zoneID name recordType = Except.ok []) :
    GetDNSRecord api zoneID name recordType =
      Except.error ("DNS record not found: " ++ name ++ " (" ++ recordType ++ ")") := by
  simp only [GetDNSRecord, h]

/-- A failed provider listing yields the wrapped list error of
`GetDNSRecord`. -/
theorem GetDNSRecord_of_list_error (api : CFAPI) (zoneID name recordType e : String)
    (h : api.listDNSRecords zoneID name recordType = Except.error e) :
    GetDNSRecord api zoneID name recordType =
      Except.error ("failed to list DNS records: " ++ e) := by
  simp only [GetDNSRecord, h]

/-- If every unit's find fails, the bootstrap fold leaves the state
untouched. -/
theorem initUnits_all_missing (p : CFAPI) :
    ∀ (units : List (DNSRecord × String)) (st : State),
      (∀ u ∈ units, ∃ e, GetDNSRecord p u.1.zoneID u.1.name u.2 = Except.error e) →
      initUnits p units st = st := by
  intro units
  induction units with
  | nil => intro st _; rfl
  | cons u rest ih =>
    intro st h
    cases u with
    | mk record recordType =>
      obtain ⟨e, he⟩ := h (record, recordType) (List.mem_cons_self _ _)
      simp only [initUnits, he]
      exact ih st (fun u hu => h u (List.mem_cons_of_mem _ hu))

/-- Once the state holds the found content for a key, the rest of the
bootstrap fold keeps it, provided no distinct triple collides on the
key. -/
theorem initUnits_preserve (p : CFAPI) (z n t : String) (info : DNSRecordInfo)
    (hfound : GetDNSRecord p z n t = Except.ok info) :
    ∀ (units : List (DNSRecord × String)) (st : State),
      (∀ u ∈ units, stateKey u.1.zoneID u.1.name u.2 = stateKey z n t →
        u.1.zoneID = z ∧ u.1.name = n ∧ u.2 = t) →
      st.Get z n t = info.content →
      (initUnits p units st).Get z n t = info.content := by
  intro units
  induction units with
  | nil => intro st _ hst; exact hst
  | cons u rest ih =>
    intro st hkey hst
    cases u with
    | mk record recordType =>
      have hkey' := fun u hu => hkey u (List.mem_cons_of_mem _ hu)
      by_cases hk : stateKey record.zoneID record.name recordType = stateKey z n t
      · obtain ⟨hz, hn, ht⟩ := hkey (record, recordType) (List.mem_cons_self _ _) hk
        have hz2 : record.zoneID = z := hz
        have hn2 : record.name = n := hn
        have ht2 : recordType = t := ht
        have hf : GetDNSRecord p record.zoneID record.name recordType =
            Except.ok info := by
          rw [hz2, hn2, ht2]
          exact hfound
        simp only [initUnits, hf]
        apply ih _ hkey'
        have hsame := State.Get_Set_same st z n t info.content
        rw [hz2, hn2, ht2]
        exact hsame
      · cases hg : GetDNSRecord p record.zoneID record.name recordType with
        | error e =>
          simp only [initUnits, hg]
          exact ih st hkey' hst
        | ok ex =>
          simp only [initUnits, hg]
          apply ih _ hkey'
          rw [State.Get_Set_other st ex.content (fun hx => hk hx.symm)]
          exact hst

/-- A unit whose find succeeds seeds the bootstrap state with the found
content, provided no distinct triple collides on the key. -/
theorem initUnits_establish (p : CFAPI) (z n t : String) (info : DNSRecordInfo)
    (hfound : GetDNSRecord p z n t = Except.ok info) :
    ∀ (units : List (DNSRecord × String)) (st : State),
      (∀ u ∈ units, stateKey u.1.zoneID u.1.name u.2 = stateKey z n t →
        u.1.zoneID = z ∧ u.1.name = n ∧ u.2 = t) →
      (z, n, t) ∈ units.map (fun u => (u.1.zoneID, u.1.name, u.2)) →
      (initUnits p units st).Get z n t = info.content := by
  intro units
  induction units with
  | nil => intro st _ hmem; exact absurd hmem (List.not_mem_nil _)
  | cons u rest ih =>
    intro st hkey hmem
    cases u with
    | mk record recordType =>
      have hkey' := fun u hu => hkey u (List.mem_cons_of_mem _ hu)
      rcases List.mem_cons.mp hmem with hhead | htail
      · have hz : record.zoneID = z := (Prod.mk.injEq _ _ _ _).mp hhead.symm |>.1
        have hrest := (Prod.mk.injEq _ _ _ _).mp hhead.symm |>.2
        have hn : record.name = n := (Prod.mk.injEq _ _ _ _).mp hrest |>.1
        have ht : recordType = t := (Prod.mk.injEq _ _ _ _).mp hrest |>.2
        have hf : GetDNSRecord p record.zoneID record.name recordType =
            Except.ok info := by
          rw [hz, hn, ht]
          exact hfound
        simp only [initUnits, hf]
        apply initUnits_preserve p z n t info hfound rest _ hkey'
        have := State.Get_Set_same st z n t info.content
        rw [hz, hn, ht]
        exact this
      · cases hg : GetDNSRecord p record.zoneID record.name recordType with
        | error e =>
          simp only [initUnits, hg]
          exact ih st hkey' htail
        | ok ex =>
          simp only [initUnits, hg]
          exact ih _ hkey' htail

/-- C4: `InitializeState` always returns success; if every find fails
(not-found or any provider failure) the state is left untouched, in
particular fully empty against a provider with zero matching records; and
a (record, type) pair whose find succeeds seeds its key with the found
content (stated under key-collision freedom for the key). -/
theorem C4_initialize_best_effort (p : CFAPI) (cfg : Config) (st : State) :
    (InitializeState p cfg st).2 = Except.ok ()
    ∧ ((∀ u ∈ expandUnits cfg.records,
        ∃ e, GetDNSRecord p u.1.zoneID u.1.name u.2 = Except.error e) →
      (InitializeState p cfg st).1 = st)
    ∧ ((∀ z n t, p.listDNSRecords z n t = Except.ok []) →
      InitializeState p cfg NewState = (NewState, Except.ok ()))
    ∧ (∀ (record : DNSRecord) (recordType : String) (info : DNSRecordInfo),
      (record, recordType) ∈ expandUnits cfg.records →
      (∀ u ∈ expandUnits cfg.records,
        stateKey u.1.zoneID u.1.name u.2 =
          stateKey record.zoneID record.name recordType →
        u.1.zoneID = record.zoneID ∧ u.1.name = record.name ∧ u.2 = recordType) →
      GetDNSRecord p record.zoneID record.name recordType = Except.ok info →
      (InitializeState p cfg st).1.Get record.zoneID record.name recordType =
        info.content) := by
  refine ⟨rfl, ?_, ?_, ?_⟩
  · intro h
    exact initUnits_all_missing p (expandUnits cfg.records) st h
  · intro h
    have hall : ∀ u ∈ expandUnits cfg.records,
        ∃ e, GetDNSRecord p u.1.zoneID u.1.name u.2 = Except.error e := by
      intro u _
      exact ⟨_, GetDNSRecord_of_empty p u.1.zoneID u.1.name u.2 (h _ _ _)⟩
    simp only [InitializeState]
    rw [initUnits_all_missing p (expandUnits cfg.records) NewState hall]
  · intro record recordType info hmem hkey hfound
    exact initUnits_establish p record.zoneID record.name recordType info hfound
      (expandUnits cfg.records) st hkey
      (List.mem_map_of_mem (fun u => (u.1.zoneID, u.1.name, u.2)) hmem)

/-- A provider that finds an existing record with a fixed content for
every key. -/
def wFoundAPI : CFAPI :=
  { listDNSRecords := fun _ name rtype =>
      Except.ok [⟨"rid", name, rtype, "198.51.100.7", 120, false⟩]
    createDNSRecord := fun _ name rtype content ttl proxied =>
      Except.ok ⟨"rid", name, rtype, content, ttl, proxied⟩
    updateDNSRecord := fun _ _ _ _ _ => Except.ok () }

/-- C4 witness: against a provider with zero matching records the state
stays fully empty with overall success, and against a provider that finds
a record the key is seeded with the found content. -/
theorem C4_witness :
    (InitializeState wAPI wConfig NewState).2 = Except.ok ()
    ∧ InitializeState wAPI wConfig NewState = (NewState, Except.ok ())
    ∧ (InitializeState wFoundAPI wConfig NewState).1.Get
      "z1" "home.example.com" "A" = "198.51.100.7" := by
  have h1 := C4_initialize_best_effort wAPI wConfig NewState
  have h2 := C4_initialize_best_effort wFoundAPI wConfig NewState
  refine ⟨h1.1, h1.2.2.1 (fun z n t => rfl), ?_⟩
  exact h2.2.2.2 wRecord "A"
    ⟨"rid", "z1", "home.example.com", "A", "198.51.100.7", 120, false⟩
    (by decide) (by decide) rfl

/-- C6 counterexample provider: the listing fails with a network error
(not a not-found), creation succeeds, and the update path reports an
error if ever taken. -/
def cexFailAPI : CFAPI :=
  { listDNSRecords := fun _ _ _ => Except.error "network error"
    createDNSRecord := fun _ name rtype content ttl proxied =>
      Except.ok ⟨"newid", name, rtype, content, ttl, proxied⟩
    updateDNSRecord := fun _ _ _ _ _ => Except.error "update path not taken" }

/-- C6 counterexample: a provider failure on find (a network error, not a
not-found) is handled exactly like not-found: `GetDNSRecord` reports it
through the same error case (only the message text differs), the upsert
composition takes the create path and succeeds, and `InitializeState`
silently skips the key.  This refutes the claim that find surfaces
not-found as a case distinct from other failures which callers treat as
errors. -/
theorem C6_counterexample :
    GetDNSRecord cexFailAPI "z1" "home.example.com" "A" =
      Except.error ("failed to list DNS records: " ++ "network error")
    ∧ UpsertDNSRecord cexFailAPI "z1" "home.example.com" "A" "203.0.113.5" 120 false =
      Except.ok ()
    ∧ InitializeState cexFailAPI wConfig NewState = (NewState, Except.ok ()) :=
  ⟨rfl, rfl, rfl⟩

/-- C6 amended: the find result has exactly two cases, a found record or
an error; not-found is an error distinguished from other provider
failures only by its message text; and the upsert composition takes the
create path on every find error, a not-found and a provider failure
alike. -/
theorem C6_find_error_cases (api : CFAPI) (zoneID name recordType : String) :
    (api.listDNSRecords zoneID name recordType = Except.ok [] →
      GetDNSRecord api zoneID name recordType =
        Except.error ("DNS record not found: " ++ name ++ " (" ++ recordType ++ ")"))
    ∧ (∀ e, api.listDNSRecords zoneID name recordType = Except.error e →
      GetDNSRecord api zoneID name recordType =
        Except.error ("failed to list DNS records: " ++ e))
    ∧ (∀ (content : String) (ttl : Int) (proxied : Bool) (e : String),
      GetDNSRecord api zoneID name recordType = Except.error e →
      UpsertDNSRecord api zoneID name recordType content ttl proxied =
        (match CreateDNSRecord api zoneID name recordType content ttl proxied with
         | Except.error e2 => Except.error e2
         | Except.ok _ => Except.ok ())) := by
  refine ⟨GetDNSRecord_of_empty api zoneID name recordType,
    fun e => GetDNSRecord_of_list_error api zoneID name recordType e, ?_⟩
  intro content ttl proxied e he
  simp only [UpsertDNSRecord, he]

/-- C6 witness: the create path is taken on a concrete failing find. -/
theorem C6_witness :
    GetDNSRecord cexFailAPI "z2" "api.example.com" "AAAA" =
      Except.error ("failed to list DNS records: " ++ "network error")
    ∧ UpsertDNSRecord cexFailAPI "z2" "api.example.com" "AAAA" "2001:db8::1" 300 true =
      (match CreateDNSRecord cexFailAPI "z2" "api.example.com" "AAAA" "2001:db8::1" 300 true with
       | Except.error e2 => Except.error e2
       | Except.ok _ => Except.ok ()) := by
  have h := C6_find_error_cases cexFailAPI "z2" "api.example.com" "AAAA"
  exact ⟨h.2.1 "network error" rfl,
    h.2.2 "2001:db8::1" 300 true _ (h.2.1 "network error" rfl)⟩

/-- Splitting a character list at a separator absent from both prefixes
is unambiguous. -/
theorem append_colon_inj : ∀ (l1 m1 l2 m2 : List Char),
    ':' ∉ l1 → ':' ∉ m1 → l1 ++ ':' :: l2 = m1 ++ ':' :: m2 →
    l1 = m1 ∧ l2 = m2 := by
  intro l1
  induction l1 with
  | nil =>
    intro m1 l2 m2 _ hm h
    cases m1 with
    | nil =>
      rw [List.nil_append, List.nil_append] at h
      injection h with h1 h2
      exact ⟨rfl, h2⟩
    | cons b m1 =>
      rw [List.nil_append, List.cons_append] at h
      injection h with h1 h2
      have hmem : ':' ∈ b :: m1 := by
        rw [← h1]
        exact List.mem_cons_self _ _
      exact absurd hmem hm
  | cons a l1 ih =>
    intro m1 l2 m2 hl hm h
    cases m1 with
    | nil =>
      rw [List.cons_append, List.nil_append] at h
      injection h with h1 h2
      have hmem : ':' ∈ a :: l1 := by
        rw [h1]
        exact List.mem_cons_self _ _
      exact absurd hmem hl
    | cons b m1 =>
      rw [List.cons_append, List.cons_append] at h
      injection h with h1 h2
      have hl' : ':' ∉ l1 := fun hx => hl (List.mem_cons_of_mem _ hx)
      have hm' : ':' ∉ m1 := fun hx => hm (List.mem_cons_of_mem _ hx)
      obtain ⟨ha, hb⟩ := ih m1 l2 m2 hl' hm' h2
      constructor
      · rw [h1, ha]
      · exact hb

/-- The character list underlying a state key. -/
theorem stateKey_data (z n t : String) :
    (stateKey z n t).data = z.data ++ ':' :: (n.data ++ ':' :: t.data) := by
  have hc : (":" : String).data = [':'] := rfl
  simp [stateKey, String.data_append, hc]

/-- The state key is injective on components whose zone and name contain
no colon. -/
theorem stateKey_inj {z n t z' n' t' : String}
    (hz : ':' ∉ z.data) (hn : ':' ∉ n.data)
    (hz' : ':' ∉ z'.data) (hn' : ':' ∉ n'.data)
    (h : stateKey z n t = stateKey z' n' t') : z = z' ∧ n = n' ∧ t = t' := by
  have hd := congrArg String.data h
  rw [stateKey_data, stateKey_data] at hd
  obtain ⟨h1, h2⟩ := append_colon_inj z.data z'.data _ _ hz hz' hd
  obtain ⟨h3, h4⟩ := append_colon_inj n.data n'.data _ _ hn hn' h2
  exact ⟨String.ext h1, String.ext h3, String.ext h4⟩

/-- A unit of work of the expansion carries a configured record and one
of its types. -/
theorem mem_expandUnits {records : List DNSRecord} {u : DNSRecord × String}
    (h : u ∈ expandUnits records) : u.1 ∈ records ∧ u.2 ∈ u.1.types := by
  simp only [expandUnits, List.mem_flatMap, List.mem_map] at h
  obtain ⟨r, hr, t, ht, hu⟩ := h
  subst hu
  exact ⟨hr, ht⟩

/-- C7 counterexample: validation accepts a configuration whose record
list repeats the same record, and the expansion then contains two units
of work for the same reconciliation key. -/
theorem C7_counterexample :
    Validate (fun _ => true) ⟨⟨"token"⟩, "5m", [wRecord, wRecord]⟩ = Except.ok ()
    ∧ (expandUnits [wRecord, wRecord]).length = 4
    ∧ ¬ ((expandUnits [wRecord, wRecord]).map
      (fun u => stateKey u.1.zoneID u.1.name u.2)).Nodup :=
  ⟨rfl, rfl, by decide⟩

/-- C7 amended: the expansion yields one unit of work per (record, type)
pair; when the configured zone IDs and names are colon-free and no two
pairs of the expansion share the same (zoneID, name, type) triple, no two
units of work in the pass address the same key.  Validation does not
itself rule out duplicated triples. -/
theorem C7_one_unit_per_key (durOk : String → Bool) (cfg : Config)
    (_hval : Validate durOk cfg = Except.ok ())
    (hfree : ∀ r ∈ cfg.records, ':' ∉ r.zoneID.data ∧ ':' ∉ r.name.data)
    (hnd : ((expandUnits cfg.records).map
      (fun u => (u.1.zoneID, u.1.name, u.2))).Nodup) :
    ((expandUnits cfg.records).map
      (fun u => stateKey u.1.zoneID u.1.name u.2)).Nodup := by
  have hinj := List.inj_on_of_nodup_map hnd
  have hund : (expandUnits cfg.records).Nodup := List.Nodup.of_map _ hnd
  apply List.Nodup.map_on ?_ hund
  intro x hx y hy hxy
  have hxr := (mem_expandUnits hx).1
  have hyr := (mem_expandUnits hy).1
  obtain ⟨hz, hn, ht⟩ := stateKey_inj (hfree x.1 hxr).1 (hfree x.1 hxr).2
    (hfree y.1 hyr).1 (hfree y.1 hyr).2 hxy
  exact hinj hx hy (by rw [hz, hn, ht])

/-- A second sample record with a distinct name. -/
def wRecordB : DNSRecord := ⟨"z1", "other.example.com", ["A"], 120, false⟩

/-- C7 witness: a validated duplicate-free configuration expands to
units with pairwise distinct keys. -/
theorem C7_witness :
    ((expandUnits (Config.records ⟨⟨"token"⟩, "5m", [wRecord, wRecordB]⟩)).map
      (fun u => stateKey u.1.zoneID u.1.name u.2)).Nodup :=
  C7_one_unit_per_key (fun _ => true) ⟨⟨"token"⟩, "5m", [wRecord, wRecordB]⟩
    rfl (by decide) (by decide)

/-- C10 failing input: a record whose types list repeats "A" three
times. -/
def tripleRecord : DNSRecord := ⟨"z1", "home.example.com", ["A", "A", "A"], 120, false⟩

/-- C10: validation accepts a record with three type entries, yet the
expansion then yields three units of work for one configured record,
exceeding the two-per-record error-channel capacity `UpdateAll`
allocates under its stated assumption. -/
theorem C10_types_unbounded :
    Validate (fun _ => true) ⟨⟨"token"⟩, "5m", [tripleRecord]⟩ = Except.ok ()
    ∧ (expandUnits [tripleRecord]).length = 3
    ∧ ([tripleRecord] : List DNSRecord).length * 2 = 2 :=
  ⟨rfl, rfl, rfl⟩

end CfDdns
